import Mathlib

/-!
# Verification of the Much_AI financial-coaching core

Shallow embedding of the scoring / repair / prediction / allocation pipeline of
the Much_AI repository (`asset/views.py`, `plan/ai_services.py`), with theorems
settling the frozen claims about it.

Modelling conventions:
* Python `Decimal` and `float` values are modelled as exact rationals (`ℚ`).
  `Decimal.quantize(...)` (ROUND_HALF_EVEN) and Python `round(x, n)` are
  modelled by `roundHalfEven`; `int(x)` truncation toward zero by `pyIntOfRat`.
  The 28-significant-digit context rounding of intermediate `Decimal`
  operations is dropped (exact rational arithmetic); for every concrete input
  used below the two agree, and no theorem depends on a value within
  `10 ^ (-20)` of a rounding tie.
* Korean narrative strings are embedded keeping all of the source's branch
  structure; Python's localized number formatting (thousands separators,
  `:,.0f`) is simplified to `toString` of the rational.  No claim inspects the
  rendered digits of a narrative field.
-/

namespace MuchAI

/-- Round-half-even (banker's rounding) to `digits` decimal places, the
rounding used by `Decimal.quantize` and Python's `round`. -/
def roundHalfEven (digits : ℕ) (q : ℚ) : ℚ :=
  let scaled : ℚ := q * (10 ^ digits : ℚ)
  let fl : ℤ := ⌊scaled⌋
  let rem : ℚ := scaled - (fl : ℚ)
  let r : ℤ :=
    if rem < 1/2 then fl
    else if 1/2 < rem then fl + 1
    else if fl % 2 = 0 then fl else fl + 1
  (r : ℚ) / (10 ^ digits : ℚ)

/-- Python `int(x)` on a numeric value: truncation toward zero. -/
def pyIntOfRat (q : ℚ) : ℤ :=
  if 0 ≤ q then ⌊q⌋ else ⌈q⌉

/-- Python floor division `a // b` on integers. -/
def pyFloorDiv (a b : ℤ) : ℤ := Int.fdiv a b

/-- `AssetProfile` (asset/models.py): the fields read by the scoring pipeline.
Monetary fields are rationals (DB integers / Decimals), `credit_score` an
integer, `income_monthly` the 6-month series. -/
structure AssetProfile where
  income_6m : ℚ
  expense_6m : ℚ
  credit_score : ℤ
  income_monthly : List ℚ
  housing_loan_balance : ℚ
  auto_loan_balance : ℚ
  savings_balance : ℚ
  investment_balance : ℚ
  delinquency_last12m : Bool
deriving Repr, DecidableEq

/-- The metrics dict built by `_compute_metrics_from_profile`
(asset/views.py:205-232).  The Python keys `debt_to_asset_ratio` and
`liquidity_ratio` are named `debt_to_asset` / `liquidity` here. -/
structure Metrics where
  savings_rate_pct : ℚ
  dti_pct : ℚ
  debt_to_asset : ℚ
  liquidity : ℚ
  monthly_surplus : ℤ
deriving Repr, DecidableEq

/-- `_compute_metrics_from_profile` (asset/views.py:205-232). -/
def compute_metrics_from_profile (p : AssetProfile) : Metrics :=
  let income_total := p.income_6m
  let expense_total := p.expense_6m
  let total_assets_liquid := p.savings_balance + p.investment_balance
  let total_debts := p.housing_loan_balance + p.auto_loan_balance
  let savings_rate_pct :=
    if 0 < income_total then (income_total - expense_total) / income_total * 100 else 0
  let dti_pct := if 0 < income_total then expense_total / income_total * 100 else 0
  let dta := if 0 < total_assets_liquid then total_debts / total_assets_liquid else 0
  let avg_monthly_expense := if 0 < expense_total then expense_total / 6 else 0
  let liq :=
    if 0 < avg_monthly_expense then p.savings_balance / (avg_monthly_expense * 6) else 0
  let monthly_surplus :=
    if 0 < income_total then pyIntOfRat ((income_total - expense_total) / 6) else 0
  { savings_rate_pct := roundHalfEven 2 savings_rate_pct
    dti_pct := roundHalfEven 2 dti_pct
    debt_to_asset := roundHalfEven 2 dta
    liquidity := roundHalfEven 2 liq
    monthly_surplus := monthly_surplus }

/-- `_score_and_grade_from_metrics` (asset/views.py:235-279): additive score
from base 50, clamped to [0,100], and the letter grade. -/
def score_and_grade_from_metrics (m : Metrics) (credit_score : ℤ)
    (delinquency_flag : Bool) : ℤ × String :=
  let score : ℤ := 50
  let dti := m.dti_pct
  let score := score +
    (if dti ≤ 40 then 25 else if dti ≤ 60 then 15 else if dti ≤ 70 then 5 else 0)
  let savings_rate := m.savings_rate_pct
  let score := score +
    (if 30 ≤ savings_rate then 20 else if 20 ≤ savings_rate then 15
     else if 10 ≤ savings_rate then 7 else 0)
  let score := score +
    (if 900 ≤ credit_score then 20 else if 800 ≤ credit_score then 15
     else if 700 ≤ credit_score then 10 else if 600 ≤ credit_score then 5 else -10)
  let score := score +
    (if m.debt_to_asset < 1 then 7 else if m.debt_to_asset < 2 then 3 else 0)
  let score := score + (if 1 ≤ m.liquidity then 5 else 0)
  let score := score + (if delinquency_flag then -20 else 0)
  let score := max 0 (min 100 score)
  let grade :=
    if 85 ≤ score then "A" else if 70 ≤ score then "B"
    else if 55 ≤ score then "C" else "D"
  (score, grade)

/-- Modelled from the spec, §4.3: the additive scoring formula written from the
spec's words ("additive, base 50" with the six listed contributions), for
comparison with `score_and_grade_from_metrics`. -/
def spec_score_additive (m : Metrics) (credit_score : ℤ) (delinquency_flag : Bool) : ℤ :=
  50
  + (if m.dti_pct ≤ 40 then 25 else if m.dti_pct ≤ 60 then 15
     else if m.dti_pct ≤ 70 then 5 else 0)
  + (if 30 ≤ m.savings_rate_pct then 20 else if 20 ≤ m.savings_rate_pct then 15
     else if 10 ≤ m.savings_rate_pct then 7 else 0)
  + (if 900 ≤ credit_score then 20 else if 800 ≤ credit_score then 15
     else if 700 ≤ credit_score then 10 else if 600 ≤ credit_score then 5 else -10)
  + (if m.debt_to_asset < 1 then 7 else if m.debt_to_asset < 2 then 3 else 0)
  + (if 1 ≤ m.liquidity then 5 else 0)
  + (if delinquency_flag then -20 else 0)

/-! ## The JSON data model of the repair layer

`_ensure_assessment_schema` (asset/views.py:341-384) receives `dict | str |
None`.  Parsed JSON values and the Python values stored in the assessment dict
are modelled by `Json`; Python exceptions escaping an operation by `PyErr`. -/

/-- A Python/JSON value as handled by the repair layer.  Integers (`jint`) and
non-integral numbers (`jnum`) are separated to mirror Python `int` vs
`float/Decimal`. -/
inductive Json where
  | jnull
  | jbool (b : Bool)
  | jint (n : ℤ)
  | jnum (q : ℚ)
  | jstr (s : String)
  | jarr (xs : List Json)
  | jobj (fields : List (String × Json))
deriving Repr

/-- The Python exceptions the repair layer can raise. -/
inductive PyErr where
  | typeError
  | valueError
  | keyError
  | attributeError
deriving Repr, DecidableEq

/-- Python truthiness of a value (`if data.get(k):` tests). -/
def truthy : Json → Bool
  | .jnull => false
  | .jbool b => b
  | .jint n => n ≠ 0
  | .jnum q => q ≠ 0
  | .jstr s => s ≠ ""
  | .jarr xs => !xs.isEmpty
  | .jobj fs => !fs.isEmpty

/-- `d.get(k)` on a dict: parsed JSON objects have unique keys, so first-match
lookup is the dict semantics. -/
def jlookup (fields : List (String × Json)) (k : String) : Option Json :=
  (fields.find? (fun kv => kv.1 == k)).map (fun kv => kv.2)

/-- Python `int(x)`: identity on ints, truncation on numbers, 0/1 on bools,
string parse of a stripped decimal literal (`ValueError` when unparseable),
`TypeError` on everything else. -/
def pyToInt : Json → Except PyErr ℤ
  | .jint n => .ok n
  | .jnum q => .ok (pyIntOfRat q)
  | .jbool b => .ok (if b then 1 else 0)
  | .jstr s =>
      match s.trim.toInt? with
      | some n => .ok n
      | Option.none => .error .valueError
  | _ => .error .typeError

/-- Python `x[:2]`: defined on strings and lists, `TypeError` otherwise. -/
def pySlice2 : Json → Except PyErr Json
  | .jstr s => .ok (.jstr (s.take 2))
  | .jarr xs => .ok (.jarr (xs.take 2))
  | _ => .error .typeError

/-- Substring test, Python `needle in haystack` on strings. -/
def strContains (hay needle : String) : Bool :=
  (hay.splitOn needle).length != 1

/-- Python `x == k` for a string `k`: only the equal string compares equal. -/
def eqJStr (x : Json) (k : String) : Bool :=
  match x with
  | .jstr s => s == k
  | _ => false

/-- Python `k in m`: key membership on dicts, substring on strings, element
membership on lists, `TypeError` on non-containers. -/
def pyContains (m : Json) (k : String) : Except PyErr Bool :=
  match m with
  | .jobj fs => .ok (jlookup fs k).isSome
  | .jstr s => .ok (strContains s k)
  | .jarr xs => .ok (xs.any (fun x => eqJStr x k))
  | _ => .error .typeError

/-- Python `m[k]` with a string key: dict lookup (`KeyError` when missing),
`TypeError` on anything else. -/
def pyIndexStr (m : Json) (k : String) : Except PyErr Json :=
  match m with
  | .jobj fs =>
      match jlookup fs k with
      | some v => .ok v
      | Option.none => .error .keyError
  | _ => .error .typeError

/-- One iteration of the metrics-merge loop (asset/views.py:369-371):
`if k in m and m[k] is not None: metrics[k] = m[k]`. -/
def mergeMetricKey (m : Json) (k : String) (cur : Json) : Except PyErr Json := do
  let c ← pyContains m k
  if c then
    let v ← pyIndexStr m k
    match v with
    | .jnull => pure cur
    | _ => pure v
  else
    pure cur

/-- Python `d[k] = v` preserving dict insertion order. -/
def dictSet (d : List (String × Json)) (k : String) (v : Json) : List (String × Json) :=
  if (d.find? (fun kv => kv.1 == k)).isSome then
    d.map (fun kv => if kv.1 == k then (kv.1, v) else kv)
  else
    d ++ [(k, v)]

/-- Python `base.update(upd)` on dicts. -/
def dictUpdate (d : List (String × Json)) (upd : List (String × Json)) :
    List (String × Json) :=
  upd.foldl (fun acc kv => dictSet acc kv.1 kv.2) d

/-- The `metrics` sub-dict of an assessment result.  Values are arbitrary
Python values after an overlay (`metrics[k] = m[k]` copies whatever the
external dict holds).  Field names drop the Python `_ratio` suffix. -/
structure MetricsJson where
  savings_rate_pct : Json
  dti_pct : Json
  debt_to_asset : Json
  liquidity : Json
  monthly_surplus : Json
deriving Repr

/-- The assessment-result dict of `_fallback_assessment_from_profile` /
`_ensure_assessment_schema`.  `score_100` is always an `int` (it is produced by
`int(...)`); `grade` is whatever `[:2]` slicing returned; the remaining
overlayable fields can hold arbitrary Python values after an overlay. -/
structure Assessment where
  grade : Json
  score_100 : ℤ
  summary : Json
  detailed_analysis : List (String × Json)
  metrics : MetricsJson
  risk_factors : Json
  alerts : Json
  recommendations : Json
  next_steps : Json
deriving Repr

/-- Number formatting used by the narrative f-strings (`:,.0f`): rounded to 0
decimals; the thousands separator of the source is omitted (no claim inspects
the rendered digits). -/
def fmt0 (q : ℚ) : String := toString (roundHalfEven 0 q)

/-- `:.1f` formatting, same simplification as `fmt0`. -/
def fmt1 (q : ℚ) : String := toString (roundHalfEven 1 q)

/-- Python `max` over a list (the source guards emptiness with `or [0]`). -/
def pyListMax : List ℚ → ℚ
  | [] => 0
  | x :: xs => xs.foldl max x

/-- Python `min` over a list (the source guards emptiness with `or [0]`). -/
def pyListMin : List ℚ → ℚ
  | [] => 0
  | x :: xs => xs.foldl min x

/-- `_fallback_assessment_from_profile` (asset/views.py:282-338): the
deterministic schema-complete base derived from the profile via
`_compute_metrics_from_profile` and `_score_and_grade_from_metrics`. -/
def fallback_assessment_from_profile (p : AssetProfile) : Assessment :=
  let metrics := compute_metrics_from_profile p
  let sg := score_and_grade_from_metrics metrics p.credit_score p.delinquency_last12m
  let score := sg.1
  let grade := sg.2
  let income_6m := p.income_6m
  let expense_6m := p.expense_6m
  let credit_score := p.credit_score
  let status_desc :=
    if 80 ≤ score then "우수한" else if 65 ≤ score then "양호한" else "주의가 필요한"
  let action_desc :=
    if 80 ≤ score then "현재 상태 유지와 투자 다양화"
    else if 65 ≤ score then "DTI 개선과 비상자금 확충" else "지출 관리와 부채 정리"
  let summary :=
    "<p><strong>상태 개요</strong>: 최근 6개월 수입 " ++ fmt0 income_6m ++ "원, 지출 " ++
    fmt0 expense_6m ++ "원으로 저축률 " ++ toString metrics.savings_rate_pct ++
    "%를 기록했습니다.</p> <p><strong>계산 근거</strong>: DTI " ++ toString metrics.dti_pct ++
    "%, 신용점수 " ++ toString credit_score ++ "점, 월 여유자금 " ++
    toString metrics.monthly_surplus ++ "원을 종합 평가했습니다.</p> <p><strong>핵심 진단</strong>: " ++
    grade ++ "등급으로 " ++ status_desc ++ " 재무 상태입니다.</p> <p><strong>권장 행동</strong>: " ++
    action_desc ++ "를 우선하세요.</p>"
  let monthly_list := if p.income_monthly.isEmpty then [0] else p.income_monthly
  { grade := .jstr grade
    score_100 := score
    summary := .jstr summary
    detailed_analysis :=
      [("financial_health", .jstr
          ("6개월 수입 " ++ fmt0 income_6m ++ "원 대비 지출 " ++ fmt0 expense_6m ++
           "원으로 저축률 " ++ toString metrics.savings_rate_pct ++ "%를 달성했습니다. 월 여유자금 " ++
           toString metrics.monthly_surplus ++ "원으로 " ++
           (if 500000 < metrics.monthly_surplus then "안정적"
            else if 200000 < metrics.monthly_surplus then "보통" else "부족한") ++
           " 수준입니다.")),
       ("debt_structure", .jstr
          ("신용점수 " ++ toString credit_score ++ "점 기준으로 " ++
           (if 750 ≤ credit_score then "우량"
            else if 650 ≤ credit_score then "보통" else "관리 필요") ++
           " 신용 상태입니다. DTI " ++ toString metrics.dti_pct ++ "%로 " ++
           (if metrics.dti_pct ≤ 40 then "안전"
            else if metrics.dti_pct ≤ 60 then "주의" else "위험") ++
           " 구간에 해당합니다.")),
       ("asset_allocation", .jstr
          ("쉽게 찾을 수 있는 돈(예적금) 비중과 투자 자산의 균형을 평가했습니다. 비상자금 확보 비율은 " ++
           fmt1 metrics.liquidity ++ "배로 " ++
           (if 1 ≤ metrics.liquidity then "충분" else "부족") ++ " 수준입니다.")),
       ("trend_analysis", .jstr
          ("최근 6개월 수입·지출 패턴에서 " ++
           (if |pyListMax monthly_list - pyListMin monthly_list| ≤ 100 then "안정적"
            else "변동성이 있는") ++
           " 추세를 보였습니다. 월평균 수입 " ++ fmt0 (income_6m / 6) ++ "원, 지출 " ++
           fmt0 (expense_6m / 6) ++ "원 기준입니다."))]
    metrics :=
      { savings_rate_pct := .jnum metrics.savings_rate_pct
        dti_pct := .jnum metrics.dti_pct
        debt_to_asset := .jnum metrics.debt_to_asset
        liquidity := .jnum metrics.liquidity
        monthly_surplus := .jint metrics.monthly_surplus }
    risk_factors := .jarr
      [.jobj [("category", .jstr "중위험"),
              ("description", .jstr "DTI가 중간 수준으로 상승 가능성 존재"),
              ("impact", .jstr "금리 상승기 가계 현금흐름 압박")]]
    alerts := .jarr []
    recommendations := .jarr
      [.jobj [("priority", .jstr (if 60 < metrics.dti_pct then "높음" else "보통")),
              ("category", .jstr (if 60 < metrics.dti_pct then "지출관리" else "저축늘리기")),
              ("action", .jstr
                 (if 60 < metrics.dti_pct then
                    "월 지출을 " ++ fmt0 (expense_6m / 6) ++ "원에서 " ++
                    fmt0 ((expense_6m / 6) * (9/10)) ++ "원으로 10% 줄이고 자동이체 설정"
                  else
                    "월 저축을 " ++ toString metrics.monthly_surplus ++ "원에서 " ++
                    toString (metrics.monthly_surplus + 200000) ++
                    "원으로 늘려 목표 저축률 25% 달성")),
              ("expected_benefit", .jstr
                 (if 60 < metrics.dti_pct then "DTI 5~10%p 개선" else "연간 240만원 추가 저축"))],
       .jobj [("priority", .jstr "보통"),
              ("category", .jstr "투자기초"),
              ("action", .jstr
                 ("비상자금 " ++ fmt0 ((expense_6m / 6) * 3) ++ "원(3개월치) 확보 후 월 " ++
                  toString (min 300000 (pyFloorDiv metrics.monthly_surplus 2)) ++
                  "원씩 ETF 적립식 투자 시작")),
              ("expected_benefit", .jstr "장기 자산 증식과 인플레이션 대응")]]
    next_steps := .jarr
      [.jstr ("이번 달 예산 " ++ fmt0 (expense_6m / 6) ++ "원 상한 설정하고 가계부 앱 설치"),
       .jstr ("비상자금 " ++ fmt0 ((expense_6m / 6) * 3) ++ "원 목표로 적금 자동이체 신청"),
       .jstr "신용카드 이용률 30% 이하 유지 (현재 한도 기준 월 사용액 체크)"] }

/-- The raw LLM value handed to `_ensure_assessment_schema`
(asset/views.py:341-384).  A string input is represented by the outcomes of the
two stdlib parse attempts of lines 349-359: `direct` is the result of
`json.loads` on the whole string (`Option.none` when it raises) and
`extracted` the parse of the largest brace-delimited substring, tried only
when the direct parse raised (`Option.none` when the regex finds no match or
that parse raises too).  A malformed non-JSON garbage string is
`str Option.none Option.none`. -/
inductive RawInput where
  | pyNone
  | str (direct : Option Json) (extracted : Option Json)
  | dict (d : List (String × Json))

/-- The value bound to `data` after the input-normalization prelude of
`_ensure_assessment_schema` (asset/views.py:346-359). -/
def dataValue : RawInput → Json
  | .pyNone => .jobj []
  | .dict d => .jobj d
  | .str (some j) _ => j
  | .str Option.none (some j) => j
  | .str Option.none Option.none => .jobj []

/-- `data.get(k) or base` — the overwrite-if-truthy overlay used for `grade`,
`summary`, `risk_factors`, `recommendations` and `next_steps`. -/
def overlayOr (data : List (String × Json)) (k : String) (base : Json) : Json :=
  match jlookup data k with
  | some v => if truthy v then v else base
  | Option.none => base

/-- `data.get("score_100", base["score_100"])` (asset/views.py:362). -/
def scoreArg (data : List (String × Json)) (baseScore : ℤ) : Json :=
  (jlookup data "score_100").getD (.jint baseScore)

/-- `data.get("metrics") or {}` (asset/views.py:367). -/
def metricsSource (data : List (String × Json)) : Json :=
  match jlookup data "metrics" with
  | some v => if truthy v then v else .jobj []
  | Option.none => .jobj []

/-- The `detailed_analysis` merge (asset/views.py:375-376):
`base["detailed_analysis"].update({k: v for k, v in data["detailed_analysis"].items() if v})`,
an `AttributeError` when the truthy value is not a dict. -/
def detailedStep (data : List (String × Json)) (baseDa : List (String × Json)) :
    Except PyErr (List (String × Json)) :=
  match jlookup data "detailed_analysis" with
  | some v =>
      if truthy v then
        match v with
        | .jobj fs => .ok (dictUpdate baseDa (fs.filter (fun kv => truthy kv.2)))
        | _ => .error .attributeError
      else .ok baseDa
  | Option.none => .ok baseDa

/-- `_ensure_assessment_schema` (asset/views.py:341-384): overlay the external
dict onto the deterministic base, aborting with the Python exception when an
operation raises (the function has no try/except around the overlay). -/
def ensure_assessment_schema (llm_json : RawInput) (profile : AssetProfile) :
    Except PyErr Assessment := do
  let base := fallback_assessment_from_profile profile
  match dataValue llm_json with
  | .jobj data => do
      let score100 ← pyToInt (scoreArg data base.score_100)
      let grade ← pySlice2 (overlayOr data "grade" base.grade)
      let summary := overlayOr data "summary" base.summary
      let m := metricsSource data
      let srp ← mergeMetricKey m "savings_rate_pct" base.metrics.savings_rate_pct
      let dti ← mergeMetricKey m "dti_pct" base.metrics.dti_pct
      let dta ← mergeMetricKey m "debt_to_asset_ratio" base.metrics.debt_to_asset
      let liq ← mergeMetricKey m "liquidity_ratio" base.metrics.liquidity
      let srm ← mergeMetricKey m "monthly_surplus" base.metrics.monthly_surplus
      let da ← detailedStep data base.detailed_analysis
      Except.ok { base with
        grade := grade
        score_100 := score100
        summary := summary
        detailed_analysis := da
        metrics :=
          { savings_rate_pct := srp, dti_pct := dti, debt_to_asset := dta,
            liquidity := liq, monthly_surplus := srm }
        risk_factors := overlayOr data "risk_factors" base.risk_factors
        recommendations := overlayOr data "recommendations" base.recommendations
        next_steps := overlayOr data "next_steps" base.next_steps }
  | _ => .error .attributeError

/-- The forced-fallback postcondition of `assess` (asset/views.py:622-624):
after the repair overlay, a final `score_100` of 0 discards the whole result
and re-derives the deterministic base from the profile. -/
def assess_finalize (profile : AssetProfile) (r : Assessment) : Assessment :=
  if r.score_100 = 0 then fallback_assessment_from_profile profile else r

/-- A present value that Python `int(...)` accepts. -/
def intCoercible : Json → Bool
  | .jint _ => true
  | .jnum _ => true
  | .jbool _ => true
  | .jstr s => (s.trim.toInt?).isSome
  | _ => false

/-- The `score_100` field, if present, is `int(...)`-coercible. -/
def scoreFieldOk (d : List (String × Json)) : Bool :=
  match jlookup d "score_100" with
  | some v => intCoercible v
  | Option.none => true

/-- Field `k`, when present and truthy, is a string. -/
def fieldOkStr (d : List (String × Json)) (k : String) : Bool :=
  match jlookup d k with
  | some v => !(truthy v) || (match v with | .jstr _ => true | _ => false)
  | Option.none => true

/-- Field `k`, when present and truthy, is a dict. -/
def fieldOkObj (d : List (String × Json)) (k : String) : Bool :=
  match jlookup d k with
  | some v => !(truthy v) || (match v with | .jobj _ => true | _ => false)
  | Option.none => true

/-- Inputs on which the overlay of `_ensure_assessment_schema` is
exception-free: the extracted data is a dict (this covers `None`, garbage
strings and strings parsing to an object) whose `score_100`, if present, is
`int(...)`-coercible, whose `grade` is a string when present and truthy, and
whose `metrics` and `detailed_analysis` are dicts when present and truthy. -/
def wellTypedRaw (raw : RawInput) : Bool :=
  match dataValue raw with
  | .jobj d =>
      scoreFieldOk d && fieldOkStr d "grade" && fieldOkObj d "metrics" &&
        fieldOkObj d "detailed_analysis"
  | _ => false

/-- The demo profile seeded by `demo_login` (asset/views.py:523-541). -/
def demoProfile : AssetProfile :=
  { income_6m := 36000000
    expense_6m := 24000000
    credit_score := 720
    income_monthly := [550, 600, 580, 620, 600, 650]
    housing_loan_balance := 320000000
    auto_loan_balance := 18000000
    savings_balance := 6000000
    investment_balance := 15000000
    delinquency_last12m := false }

/-! ## StatisticalPredictor (plan/ai_services.py) -/

/-- Fuel-driven integer square root (largest `r` with `r * r ≤ n`), counting
up so that concrete evaluation reduces inside the kernel. -/
def isqrtGo (n : ℕ) : ℕ → ℕ → ℕ
  | 0, r => r
  | fuel + 1, r => if (r + 1) * (r + 1) ≤ n then isqrtGo n fuel (r + 1) else r

/-- Integer square root used by `ratSqrt`. -/
def isqrt (n : ℕ) : ℕ := isqrtGo n n 0

/-- Models `Decimal.sqrt()` at the default 28-digit context: exact whenever
the radicand is a ratio of perfect squares (which covers every concrete
evaluation below), and a 28-decimal-digit floor approximation otherwise; no
theorem depends on the approximate case. -/
def ratSqrt (q : ℚ) : ℚ :=
  if q ≤ 0 then 0
  else
    let n := q.num.toNat
    let d := q.den
    if isqrt n * isqrt n = n ∧ isqrt d * isqrt d = d then
      (isqrt n : ℚ) / (isqrt d : ℚ)
    else
      (isqrt (n * 10 ^ 56 / d) : ℚ) / 10 ^ 28

/-- `PredictionResult`: the dict returned by the statistical fallback
predictor (`_predict_with_statistics`). -/
structure PredictionResult where
  predicted_monthly_income : ℚ
  predicted_yearly_income : ℚ
  confidence_level : ℚ
  income_volatility : ℚ
  seasonal_pattern : String
  risk_factors : List String
  growth_trend : String
  recommendations : List String
  prediction_method : String
deriving Repr, DecidableEq

/-- The Korean month names of `_analyze_seasonality`. -/
def month_names : List String :=
  ["1월", "2월", "3월", "4월", "5월", "6월", "7월", "8월", "9월", "10월", "11월", "12월"]

/-- Insertion into a name-sorted association list (Python `sorted` on the
month-name keys is lexicographic on the strings). -/
def insertByName (x : String × ℚ) : List (String × ℚ) → List (String × ℚ)
  | [] => [x]
  | y :: ys => if x.1 < y.1 then x :: y :: ys else y :: insertByName x ys

/-- Sort an association list by name. -/
def sortByName (l : List (String × ℚ)) : List (String × ℚ) :=
  l.foldr insertByName []

/-- `_analyze_seasonality` (plan/ai_services.py:406-439): one entry per
positive month, keyed by month name, iterated in lexicographically sorted key
order. -/
def analyze_seasonality (monthly_incomes : List ℚ) : String :=
  let entries := (monthly_incomes.enum.filter (fun p => 0 < p.2)).map
    (fun p => (month_names.getD p.1 (toString (p.1 + 1) ++ "월"), p.2))
  if entries.isEmpty then "계절성 패턴 분석 불가"
  else
    "계절성 분석: " ++ String.intercalate ", "
      ((sortByName entries).map (fun p => p.1 ++ " 평균 " ++ fmt0 p.2 ++ "원"))

/-- `_analyze_growth_trend` (plan/ai_services.py:441-461): mean of the last 3
valid months against the mean of the earlier ones (or itself when fewer than
4 exist); ±10 % relative change decides the trend. -/
def analyze_growth_trend (valid_incomes : List ℚ) : String :=
  if valid_incomes.length < 3 then "stable"
  else
    let recent_avg := (valid_incomes.drop (valid_incomes.length - 3)).sum / 3
    let older_avg :=
      if 3 < valid_incomes.length then
        (valid_incomes.take (valid_incomes.length - 3)).sum /
          ((valid_incomes.length : ℚ) - 3)
      else recent_avg
    let growth_rate :=
      if 0 < older_avg then (recent_avg - older_avg) / older_avg else 0
    if (1/10 : ℚ) < growth_rate then "positive"
    else if growth_rate < -(1/10 : ℚ) then "negative"
    else "stable"

/-- `_calculate_confidence` (plan/ai_services.py:463-480).  The Python
`Decimal(str(min(len(valid)/12, 1.0)))` float round-trip is modelled as the
exact rational `min(len/12, 1)`; the two differ by less than `10 ^ (-16)`,
absorbed by the 2-decimal quantization on every input considered below. -/
def calculate_confidence (valid_incomes : List ℚ) (volatility mean_income : ℚ) : ℚ :=
  let data_quality : ℚ := min ((valid_incomes.length : ℚ) / 12) 1
  let volatility_factor :=
    if 0 < mean_income then max 0 (min 1 (1 - volatility / mean_income)) else 0
  roundHalfEven 2 ((data_quality * (6/10) + volatility_factor * (4/10)) * 100)

/-- `_identify_risk_factors` (plan/ai_services.py:482-508). -/
def identify_risk_factors (valid_incomes : List ℚ) (volatility mean_income : ℚ) :
    List String :=
  let l1 := if mean_income * (3/10) < volatility then ["높은 소득 변동성"] else []
  let l2 := if valid_incomes.length < 6 then ["부족한 소득 이력"] else []
  let l3 := if mean_income < 2000000 then ["낮은 평균 소득"] else []
  let l4 :=
    if 3 ≤ valid_incomes.length then
      let recent_trend := (valid_incomes.drop (valid_incomes.length - 3)).sum / 3
      let older_trend :=
        if 3 < valid_incomes.length then
          (valid_incomes.take (valid_incomes.length - 3)).sum /
            ((valid_incomes.length : ℚ) - 3)
        else recent_trend
      if recent_trend < older_trend * (8/10) then ["최근 소득 하락 추세"] else []
    else []
  l1 ++ l2 ++ l3 ++ l4

/-- `_generate_recommendations` (plan/ai_services.py:510-532). -/
def generate_recommendations (valid_incomes : List ℚ) (volatility : ℚ)
    (growth_trend : String) : List String :=
  let r1 :=
    if valid_incomes.sum / valid_incomes.length * (3/10) < volatility then
      ["소득 안정화를 위한 다각화 전략 수립"]
    else []
  let r2 := if growth_trend = "negative" then ["소득 증대를 위한 새로운 수익원 개발"] else []
  let r3 := if valid_incomes.length < 6 then ["소득 데이터 지속적 기록으로 예측 정확도 향상"] else []
  r1 ++ r2 ++ r3 ++ ["비상금 확보를 통한 소득 변동성 대비", "정기적인 자산 관리 플랜 검토 및 조정"]

/-- `_calculate_predicted_income` (plan/ai_services.py:534-560): weighted
recent/older blend scaled by the trend, plain mean when fewer than 3 valid
months. -/
def calculate_predicted_income (valid_incomes : List ℚ) (growth_trend : String) : ℚ :=
  if 3 ≤ valid_incomes.length then
    let recent_avg := (valid_incomes.drop (valid_incomes.length - 3)).sum / 3
    let older_avg :=
      if 3 < valid_incomes.length then
        (valid_incomes.take (valid_incomes.length - 3)).sum /
          ((valid_incomes.length : ℚ) - 3)
      else recent_avg
    let base_prediction := recent_avg * (6/10) + older_avg * (4/10)
    if growth_trend = "positive" then base_prediction * (105/100)
    else if growth_trend = "negative" then base_prediction * (95/100)
    else base_prediction
  else valid_incomes.sum / valid_incomes.length

/-- `_predict_with_statistics` (plan/ai_services.py:327-404).  The unused
`income_type` argument of the Python method is dropped. -/
def predict_with_statistics (monthly_incomes : List ℚ) : PredictionResult :=
  let valid_incomes := monthly_incomes.filter (fun x => 0 < x)
  if valid_incomes.isEmpty then
    { predicted_monthly_income := 0
      predicted_yearly_income := 0
      confidence_level := 0
      income_volatility := 0
      seasonal_pattern := "데이터 부족"
      risk_factors := ["소득 데이터 부족"]
      growth_trend := "unknown"
      recommendations := ["소득 데이터를 더 많이 수집해주세요"]
      prediction_method := "statistical_fallback" }
  else
    let mean_income := valid_incomes.sum / valid_incomes.length
    let volatility0 :=
      if 1 < valid_incomes.length then
        let variance := ((valid_incomes.map (fun x => (x - mean_income) ^ 2)).sum) /
          ((valid_incomes.length : ℚ) - 1)
        let stddev := ratSqrt variance
        if 0 < mean_income then stddev / mean_income * 100 else 0
      else 0
    let volatility1 := if volatility0 < 0 then 0 else volatility0
    let volatility2 := if 100 < volatility1 then 100 else volatility1
    let volatility := roundHalfEven 2 volatility2
    let growth_trend := analyze_growth_trend valid_incomes
    let predicted_monthly := calculate_predicted_income valid_incomes growth_trend
    { predicted_monthly_income := predicted_monthly
      predicted_yearly_income := predicted_monthly * 12
      confidence_level := calculate_confidence valid_incomes volatility mean_income
      income_volatility := volatility
      seasonal_pattern := analyze_seasonality monthly_incomes
      risk_factors := identify_risk_factors valid_incomes volatility mean_income
      growth_trend := growth_trend
      recommendations := generate_recommendations valid_incomes volatility growth_trend
      prediction_method := "statistical_fallback" }

/-- Modelled from the spec, §4.2 step 6, literally: confidence =
clamp((min(count/12, 1) × 0.6 + max(0, 1 − volatility/100) × 0.4) × 100, 0,
100) rounded to 2 decimals. -/
def spec_confidence_c5 (count : ℕ) (volatility : ℚ) : ℚ :=
  roundHalfEven 2 (max 0 (min 100
    ((min ((count : ℚ) / 12) 1 * (6/10) + max 0 (1 - volatility / 100) * (4/10)) * 100)))

/-- The spec's confidence formula amended minimally to what the code computes:
the volatility term is divided by the mean income instead of by 100 (the unit
mismatch the spec itself flags in §9). -/
def spec_confidence_amended (count : ℕ) (volatility mean_income : ℚ) : ℚ :=
  roundHalfEven 2 (max 0 (min 100
    ((min ((count : ℚ) / 12) 1 * (6/10) +
      max 0 (1 - volatility / mean_income) * (4/10)) * 100)))

/-- The all-zero 12-month history. -/
def zeroHistory : List ℚ := List.replicate 12 0

/-- A 12-month history with exactly three valid months 1, 2 and 3 (variance
1, volatility index 50). -/
def c5history : List ℚ := [1, 2, 3, 0, 0, 0, 0, 0, 0, 0, 0, 0]

/-! ## PlanAllocator (DynamicPlanGenerator, plan/ai_services.py) -/

/-- The risk tier (`plan_type`), the only three keys of the base-ratio table;
`_determine_plan_type` produces no other value. -/
inductive PlanType where
  | conservative
  | moderate
  | aggressive
deriving Repr, DecidableEq

/-- The 8-category budget ratio vector. -/
structure Ratios where
  savings : ℚ
  investment : ℚ
  housing : ℚ
  food : ℚ
  transport : ℚ
  healthcare : ℚ
  entertainment : ℚ
  other : ℚ
deriving Repr, DecidableEq

/-- The `base_ratios` table of `_calculate_dynamic_ratios`
(plan/ai_services.py:633-664). -/
def base_ratios : PlanType → Ratios
  | .conservative =>
      { savings := 25/100, investment := 15/100, housing := 25/100, food := 15/100,
        transport := 8/100, healthcare := 5/100, entertainment := 5/100, other := 2/100 }
  | .moderate =>
      { savings := 20/100, investment := 20/100, housing := 30/100, food := 15/100,
        transport := 10/100, healthcare := 5/100, entertainment := 10/100, other := 5/100 }
  | .aggressive =>
      { savings := 15/100, investment := 25/100, housing := 30/100, food := 15/100,
        transport := 10/100, healthcare := 5/100, entertainment := 10/100, other := 5/100 }

/-- Sum of the 8 category ratios. -/
def ratioSum (r : Ratios) : ℚ :=
  r.savings + r.investment + r.housing + r.food + r.transport + r.healthcare +
    r.entertainment + r.other

/-- The weight sum over the 5 variable categories
(`_generate_monthly_plans`, plan/ai_services.py:762-763). -/
def var_weight_sum (r : Ratios) : ℚ :=
  r.food + r.transport + r.healthcare + r.entertainment + r.other

/-- `_determine_plan_type` (plan/ai_services.py:616-627). -/
def determine_plan_type (volatility : ℚ) (risk_factors : List String) : PlanType :=
  if 30 < volatility ∨ 3 ≤ risk_factors.length then .conservative
  else if 15 < volatility ∨ 2 ≤ risk_factors.length then .moderate
  else .aggressive

/-- The adjustment chain of `_calculate_dynamic_ratios`
(plan/ai_services.py:666-698): base table, volatility shift, trend shift,
demographic housing floor, savings bump, volatility-dependent investment
tweak — everything before the renormalization. -/
def pre_norm_ratios (volatility : ℚ) (growth_trend : String)
    (plan_type : PlanType) : Ratios :=
  let r := base_ratios plan_type
  let r := if 30 < volatility then
      { r with savings := r.savings + 5/100, investment := r.investment - 5/100 }
    else r
  let r := if growth_trend = "positive" then
      { r with investment := r.investment + 5/100 }
    else if growth_trend = "negative" then
      { r with savings := r.savings + 5/100 }
    else r
  let r := { r with housing := max (20/100) (r.housing - 5/100) }
  let r := { r with savings := r.savings + 2/100 }
  if 25 < volatility then
    { r with investment := max (10/100) (r.investment - 3/100) }
  else { r with investment := r.investment + 2/100 }

/-- `_calculate_dynamic_ratios` (plan/ai_services.py:629-716): the adjusted
table renormalized by the pre-normalization total, each ratio quantized to 4
decimals. -/
def calculate_dynamic_ratios (volatility : ℚ) (growth_trend : String)
    (plan_type : PlanType) : Ratios :=
  let r := pre_norm_ratios volatility growth_trend plan_type
  let total := ratioSum r
  if total ≠ 0 then
    { savings := roundHalfEven 4 (r.savings / total)
      investment := roundHalfEven 4 (r.investment / total)
      housing := roundHalfEven 4 (r.housing / total)
      food := roundHalfEven 4 (r.food / total)
      transport := roundHalfEven 4 (r.transport / total)
      healthcare := roundHalfEven 4 (r.healthcare / total)
      entertainment := roundHalfEven 4 (r.entertainment / total)
      other := roundHalfEven 4 (r.other / total) }
  else r

/-- The fixed-expense table.  Both producers
(`MyDataClient.get_fixed_expenses`, plan/mydata.py:29-38, and
`_fetch_fixed_expenses`, plan/ai_services.py:795-798) return exactly the keys
housing / telecom / utilities, so `fixed_expenses.values()` sums these
three. -/
structure FixedExpenses where
  housing : ℚ
  telecom : ℚ
  utilities : ℚ
deriving Repr, DecidableEq

/-- One record of the list built by `_generate_monthly_plans`
(plan/ai_services.py:775-789). -/
structure MonthlyPlan where
  month : ℕ
  expected_income : ℚ
  savings : ℚ
  investment : ℚ
  housing : ℚ
  food : ℚ
  transport : ℚ
  healthcare : ℚ
  entertainment : ℚ
  other : ℚ
  fixed_expenses_total : ℚ
  telecom : ℚ
  utilities : ℚ
deriving Repr, DecidableEq

/-- `_get_seasonal_factor` (plan/ai_services.py:800-818); the table lookup
`.get(month, 1.0)` defaults to 1. -/
def get_seasonal_factor (month : ℕ) : ℚ :=
  match month with
  | 1 => 11/10
  | 2 => 9/10
  | 3 => 1
  | 4 => 1
  | 5 => 1
  | 6 => 95/100
  | 7 => 1
  | 8 => 9/10
  | 9 => 105/100
  | 10 => 11/10
  | 11 => 11/10
  | 12 => 12/10
  | _ => 1

/-- `_fetch_fixed_expenses` (plan/ai_services.py:795-798). -/
def fetch_fixed_expenses : FixedExpenses :=
  { housing := 800000, telecom := 70000, utilities := 120000 }

/-- Seasonal and trend adjustment of the predicted income for one month
(plan/ai_services.py:729-737). -/
def monthly_income_for (predicted_income : ℚ) (growth_trend : String) (month : ℕ) : ℚ :=
  let monthly_income0 := predicted_income * get_seasonal_factor month
  if growth_trend = "positive" then monthly_income0 * (101/100) ^ month
  else if growth_trend = "negative" then monthly_income0 * (99/100) ^ month
  else monthly_income0

/-- The floor-clamped remaining pool of one month
(plan/ai_services.py:750-759). -/
def remaining_for (predicted_income : ℚ) (r : Ratios) (growth_trend : String)
    (fx : FixedExpenses) (month : ℕ) : ℚ :=
  let monthly_income := monthly_income_for predicted_income growth_trend month
  let remaining0 := monthly_income - monthly_income * r.savings -
    monthly_income * r.investment - fx.housing - fx.telecom - fx.utilities
  if remaining0 < 0 then 0 else remaining0

/-- One iteration of the loop of `_generate_monthly_plans`
(plan/ai_services.py:728-791).  The Python code assigns the five variable
amounts in a single `if weight_sum > 0` branch; the identical guard is
repeated per field here.  `housing` is `housing_fixed or
monthly_income * ratios["housing"]` — the ratio product when the fixed value
is falsy (0). -/
def monthly_plan_for (predicted_income : ℚ) (r : Ratios) (growth_trend : String)
    (fx : FixedExpenses) (month : ℕ) : MonthlyPlan :=
  let monthly_income := monthly_income_for predicted_income growth_trend month
  let fixed_total := fx.housing + fx.telecom + fx.utilities
  let remaining := remaining_for predicted_income r growth_trend fx month
  let ws := var_weight_sum r
  { month := month
    expected_income := monthly_income
    savings := monthly_income * r.savings
    investment := monthly_income * r.investment
    housing := if fx.housing = 0 then monthly_income * r.housing else fx.housing
    food := if 0 < ws then remaining * r.food / ws else 0
    transport := if 0 < ws then remaining * r.transport / ws else 0
    healthcare := if 0 < ws then remaining * r.healthcare / ws else 0
    entertainment := if 0 < ws then remaining * r.entertainment / ws else 0
    other := if 0 < ws then remaining * r.other / ws else 0
    fixed_expenses_total := fixed_total
    telecom := fx.telecom
    utilities := fx.utilities }

/-- `_generate_monthly_plans` (plan/ai_services.py:718-793): months 1 to 12. -/
def generate_monthly_plans (predicted_income : ℚ) (r : Ratios) (growth_trend : String)
    (fx : FixedExpenses) : List MonthlyPlan :=
  (List.range' 1 12).map (monthly_plan_for predicted_income r growth_trend fx)

/-- The nine-term sum of the C7 claim: the eight category amounts plus
`fixed_expenses_total`. -/
def claim_sum (pl : MonthlyPlan) : ℚ :=
  pl.savings + pl.investment + pl.housing + pl.food + pl.transport +
    pl.healthcare + pl.entertainment + pl.other + pl.fixed_expenses_total

/-- The same sum without the housing category (which duplicates the housing
fixed expense inside `fixed_expenses_total`). -/
def partial_sum (pl : MonthlyPlan) : ℚ :=
  pl.savings + pl.investment + pl.food + pl.transport + pl.healthcare +
    pl.entertainment + pl.other + pl.fixed_expenses_total

end MuchAI

namespace MuchAI

/-- C4: for every metrics set, credit score and delinquency flag, the composite
score is an integer in [0,100] equal to the clamp of the §4.3 additive formula
from base 50, and the grade is A/B/C/D at thresholds 85/70/55.  Determinism is
immediate: `score_and_grade_from_metrics` is a pure function. -/
theorem score_and_grade_spec (m : Metrics) (credit_score : ℤ) (delinquency_flag : Bool) :
    0 ≤ (score_and_grade_from_metrics m credit_score delinquency_flag).1 ∧
    (score_and_grade_from_metrics m credit_score delinquency_flag).1 ≤ 100 ∧
    (score_and_grade_from_metrics m credit_score delinquency_flag).1 =
      max 0 (min 100 (spec_score_additive m credit_score delinquency_flag)) ∧
    (score_and_grade_from_metrics m credit_score delinquency_flag).2 =
      (if 85 ≤ (score_and_grade_from_metrics m credit_score delinquency_flag).1 then "A"
       else if 70 ≤ (score_and_grade_from_metrics m credit_score delinquency_flag).1 then "B"
       else if 55 ≤ (score_and_grade_from_metrics m credit_score delinquency_flag).1 then "C"
       else "D") :=
  by
  refine ⟨le_max_left 0 _, max_le (by norm_num) (le_trans (min_le_left _ _) le_rfl), rfl, rfl⟩

/-- `>>=` on `Except` reduces on an `ok` value. -/
theorem except_bind_ok {ε α β : Type} (a : α) (f : α → Except ε β) :
    (Except.ok a : Except ε α) >>= f = f a := rfl

/-- Slicing `[:2]` is the identity on the four one-letter grade strings. -/
theorem take_two_of_grade (s : ℤ) :
    (if 85 ≤ s then "A" else if 70 ≤ s then "B"
     else if 55 ≤ s then "C" else "D").take 2 =
    (if 85 ≤ s then "A" else if 70 ≤ s then "B"
     else if 55 ≤ s then "C" else "D") := by
  split_ifs <;> rfl

/-- The grade produced by the scoring engine is a single letter, so Python's
`[:2]` slice leaves it unchanged. -/
theorem grade_take_two (m : Metrics) (c : ℤ) (d : Bool) :
    ((score_and_grade_from_metrics m c d).2).take 2 =
      (score_and_grade_from_metrics m c d).2 :=
  take_two_of_grade ((score_and_grade_from_metrics m c d).1)

/-- The base grade is the scoring engine's grade string. -/
theorem fallback_grade (p : AssetProfile) :
    (fallback_assessment_from_profile p).grade =
      Json.jstr (score_and_grade_from_metrics (compute_metrics_from_profile p)
        p.credit_score p.delinquency_last12m).2 := rfl

/-- C1: for every profile, repair on absent input (`None`) and on a malformed
non-JSON garbage string (both stdlib parse attempts fail) return the same
result, the deterministic base `_fallback_assessment_from_profile`, and its
`score_100` is the ScoringEngine score computed from the profile. -/
theorem repair_none_eq_repair_garbage (p : AssetProfile) :
    ensure_assessment_schema RawInput.pyNone p =
      Except.ok (fallback_assessment_from_profile p) ∧
    ensure_assessment_schema (RawInput.str Option.none Option.none) p =
      Except.ok (fallback_assessment_from_profile p) ∧
    (fallback_assessment_from_profile p).score_100 =
      (score_and_grade_from_metrics (compute_metrics_from_profile p) p.credit_score
        p.delinquency_last12m).1 := by
  have key : ∀ raw : RawInput, dataValue raw = Json.jobj [] →
      ensure_assessment_schema raw p =
        Except.ok (fallback_assessment_from_profile p) := by
    intro raw h
    have step : ensure_assessment_schema raw p =
        Except.ok { fallback_assessment_from_profile p with
          grade := Json.jstr (((score_and_grade_from_metrics
            (compute_metrics_from_profile p) p.credit_score
            p.delinquency_last12m).2).take 2) } := by
      unfold ensure_assessment_schema
      rw [h]
      rfl
    rw [step, grade_take_two]
    rfl
  exact ⟨key _ rfl, key _ rfl, rfl⟩

/-- C3: whenever the repair overlay produced a result whose `score_100` is 0,
the `assess` post-step (asset/views.py:622-624) discards it wholesale and
returns the deterministic base re-derived from the profile. -/
theorem assess_zero_score_forces_fallback (raw : RawInput) (p : AssetProfile)
    (r : Assessment) (_hok : ensure_assessment_schema raw p = Except.ok r)
    (hz : r.score_100 = 0) :
    assess_finalize p r = fallback_assessment_from_profile p := by
  unfold assess_finalize
  rw [if_pos hz]

/-- Witness for `assess_zero_score_forces_fallback`: the overlay of
`{"score_100": 0}` on the demo profile yields score 0 and is then replaced by
the base. -/
theorem assess_zero_score_witness :
    assess_finalize demoProfile
      { fallback_assessment_from_profile demoProfile with
        score_100 := 0
        grade := Json.jstr (((score_and_grade_from_metrics
          (compute_metrics_from_profile demoProfile) demoProfile.credit_score
          demoProfile.delinquency_last12m).2).take 2) } =
      fallback_assessment_from_profile demoProfile :=
  assess_zero_score_forces_fallback (RawInput.dict [("score_100", Json.jint 0)])
    demoProfile _ (by rfl) rfl

/-- C2 counterexample: the repair layer is not exception-free on arbitrary
dicts — a non-numeric `score_100` (here JSON `null`) makes `int(...)` raise a
`TypeError` past the boundary (`_ensure_assessment_schema` has no try/except
around the overlay, and the caller `assess` does not catch it either; a
non-numeric string such as `"abc"` raises `ValueError` the same way). -/
theorem repair_raises_on_nonnumeric_score :
    ensure_assessment_schema (RawInput.dict [("score_100", Json.jnull)])
      demoProfile = Except.error PyErr.typeError := rfl

/-- The metrics-merge step never raises when the merge source is a dict. -/
theorem merge_metric_key_obj_ok (fs : List (String × Json)) (k : String) (cur : Json) :
    ∃ v, mergeMetricKey (Json.jobj fs) k cur = Except.ok v := by
  unfold mergeMetricKey pyContains pyIndexStr
  cases hl : jlookup fs k with
  | none => exact ⟨cur, by simp [hl, except_bind_ok, pure, Except.pure]⟩
  | some v =>
      cases v with
      | jnull => exact ⟨cur, by simp [hl, except_bind_ok, pure, Except.pure]⟩
      | jbool b => exact ⟨Json.jbool b, by simp [hl, except_bind_ok, pure, Except.pure]⟩
      | jint n => exact ⟨Json.jint n, by simp [hl, except_bind_ok, pure, Except.pure]⟩
      | jnum q => exact ⟨Json.jnum q, by simp [hl, except_bind_ok, pure, Except.pure]⟩
      | jstr s => exact ⟨Json.jstr s, by simp [hl, except_bind_ok, pure, Except.pure]⟩
      | jarr xs => exact ⟨Json.jarr xs, by simp [hl, except_bind_ok, pure, Except.pure]⟩
      | jobj fs2 => exact ⟨Json.jobj fs2, by simp [hl, except_bind_ok, pure, Except.pure]⟩

/-- A well-typed `score_100` argument coerces without an exception. -/
theorem score_arg_ok (d : List (String × Json)) (b : ℤ)
    (hsc : scoreFieldOk d = true) :
    ∃ n, pyToInt (scoreArg d b) = Except.ok n := by
  unfold scoreFieldOk at hsc
  unfold scoreArg
  cases hl : jlookup d "score_100" with
  | none => exact ⟨b, rfl⟩
  | some v =>
      rw [hl] at hsc
      cases v with
      | jint n => exact ⟨n, rfl⟩
      | jnum q => exact ⟨pyIntOfRat q, rfl⟩
      | jbool b2 => exact ⟨if b2 then 1 else 0, rfl⟩
      | jstr s =>
          simp only [intCoercible] at hsc
          obtain ⟨n, hn⟩ := Option.isSome_iff_exists.mp hsc
          exact ⟨n, by simp [pyToInt, hn]⟩
      | jnull => simp [intCoercible] at hsc
      | jarr xs => simp [intCoercible] at hsc
      | jobj fs => simp [intCoercible] at hsc

/-- A well-typed `grade` overlay onto a string base slices without an
exception. -/
theorem grade_slice_ok (d : List (String × Json)) (s0 : String)
    (hgr : fieldOkStr d "grade" = true) :
    ∃ g, pySlice2 (overlayOr d "grade" (Json.jstr s0)) = Except.ok g := by
  unfold fieldOkStr at hgr
  unfold overlayOr
  cases hl : jlookup d "grade" with
  | none => exact ⟨Json.jstr (s0.take 2), rfl⟩
  | some v =>
      rw [hl] at hgr
      simp only [] at hgr
      cases ht : truthy v with
      | false => exact ⟨Json.jstr (s0.take 2), by simp [ht, pySlice2]⟩
      | true =>
          rw [ht] at hgr
          simp only [Bool.not_true, Bool.false_or] at hgr
          cases v with
          | jstr s => exact ⟨Json.jstr (s.take 2), by simp [ht, pySlice2]⟩
          | jnull => simp at hgr
          | jbool b2 => simp at hgr
          | jint n => simp at hgr
          | jnum q => simp at hgr
          | jarr xs => simp at hgr
          | jobj fs => simp at hgr

/-- A well-typed `metrics` source is a dict. -/
theorem metrics_source_obj (d : List (String × Json))
    (hme : fieldOkObj d "metrics" = true) :
    ∃ fs, metricsSource d = Json.jobj fs := by
  unfold fieldOkObj at hme
  unfold metricsSource
  cases hl : jlookup d "metrics" with
  | none => exact ⟨[], rfl⟩
  | some v =>
      rw [hl] at hme
      simp only [] at hme
      cases ht : truthy v with
      | false => exact ⟨[], by simp [ht]⟩
      | true =>
          rw [ht] at hme
          simp only [Bool.not_true, Bool.false_or] at hme
          cases v with
          | jobj fs => exact ⟨fs, by simp [ht]⟩
          | jnull => simp at hme
          | jbool b2 => simp at hme
          | jint n => simp at hme
          | jnum q => simp at hme
          | jstr s => simp at hme
          | jarr xs => simp at hme

/-- A well-typed `detailed_analysis` merge never raises. -/
theorem detailed_step_ok (d : List (String × Json)) (b : List (String × Json))
    (hda : fieldOkObj d "detailed_analysis" = true) :
    ∃ l, detailedStep d b = Except.ok l := by
  unfold fieldOkObj at hda
  unfold detailedStep
  cases hl : jlookup d "detailed_analysis" with
  | none => exact ⟨b, rfl⟩
  | some v =>
      rw [hl] at hda
      simp only [] at hda
      cases ht : truthy v with
      | false => exact ⟨b, by simp [ht]⟩
      | true =>
          rw [ht] at hda
          simp only [Bool.not_true, Bool.false_or] at hda
          cases v with
          | jobj fs =>
              exact ⟨dictUpdate b (fs.filter (fun kv => truthy kv.2)), by simp [ht]⟩
          | jnull => simp at hda
          | jbool b2 => simp at hda
          | jint n => simp at hda
          | jnum q => simp at hda
          | jstr s => simp at hda
          | jarr xs => simp at hda

/-- C2 (amended): the repair overlay returns a result and raises no exception
on every well-typed input. -/
theorem repair_total_on_well_typed (raw : RawInput) (p : AssetProfile)
    (h : wellTypedRaw raw = true) :
    ∃ a : Assessment, ensure_assessment_schema raw p = Except.ok a := by
  unfold wellTypedRaw at h
  unfold ensure_assessment_schema
  cases hdv : dataValue raw with
  | jnull => rw [hdv] at h; simp at h
  | jbool b => rw [hdv] at h; simp at h
  | jint n => rw [hdv] at h; simp at h
  | jnum q => rw [hdv] at h; simp at h
  | jstr s => rw [hdv] at h; simp at h
  | jarr xs => rw [hdv] at h; simp at h
  | jobj d =>
      rw [hdv] at h
      simp only [Bool.and_eq_true] at h
      obtain ⟨⟨⟨hsc, hgr⟩, hme⟩, hda⟩ := h
      obtain ⟨n, hn⟩ := score_arg_ok d (fallback_assessment_from_profile p).score_100 hsc
      obtain ⟨g, hg⟩ := grade_slice_ok d ((score_and_grade_from_metrics
        (compute_metrics_from_profile p) p.credit_score p.delinquency_last12m).2) hgr
      obtain ⟨fs, hfs⟩ := metrics_source_obj d hme
      obtain ⟨v1, hv1⟩ := merge_metric_key_obj_ok fs "savings_rate_pct"
        (fallback_assessment_from_profile p).metrics.savings_rate_pct
      obtain ⟨v2, hv2⟩ := merge_metric_key_obj_ok fs "dti_pct"
        (fallback_assessment_from_profile p).metrics.dti_pct
      obtain ⟨v3, hv3⟩ := merge_metric_key_obj_ok fs "debt_to_asset_ratio"
        (fallback_assessment_from_profile p).metrics.debt_to_asset
      obtain ⟨v4, hv4⟩ := merge_metric_key_obj_ok fs "liquidity_ratio"
        (fallback_assessment_from_profile p).metrics.liquidity
      obtain ⟨v5, hv5⟩ := merge_metric_key_obj_ok fs "monthly_surplus"
        (fallback_assessment_from_profile p).metrics.monthly_surplus
      obtain ⟨da, hdaok⟩ := detailed_step_ok d
        (fallback_assessment_from_profile p).detailed_analysis hda
      refine ⟨{ fallback_assessment_from_profile p with
        grade := g
        score_100 := n
        summary := overlayOr d "summary" (fallback_assessment_from_profile p).summary
        detailed_analysis := da
        metrics := { savings_rate_pct := v1, dti_pct := v2, debt_to_asset := v3,
                     liquidity := v4, monthly_surplus := v5 }
        risk_factors := overlayOr d "risk_factors"
          (fallback_assessment_from_profile p).risk_factors
        recommendations := overlayOr d "recommendations"
          (fallback_assessment_from_profile p).recommendations
        next_steps := overlayOr d "next_steps"
          (fallback_assessment_from_profile p).next_steps }, ?_⟩
      simp only []
      rw [hn, except_bind_ok, fallback_grade, hg, except_bind_ok, hfs,
        hv1, except_bind_ok, hv2, except_bind_ok, hv3, except_bind_ok,
        hv4, except_bind_ok, hv5, except_bind_ok, hdaok, except_bind_ok]

/-- Witness for `repair_total_on_well_typed`: a concrete well-typed dict with
an overriding score, grade and a partial metrics overlay repairs cleanly. -/
theorem repair_total_witness :
    wellTypedRaw (RawInput.dict [("score_100", Json.jint 88),
      ("grade", Json.jstr "B+"),
      ("metrics", Json.jobj [("dti_pct", Json.jnum (21/2))])]) = true ∧
    ∃ a, ensure_assessment_schema (RawInput.dict [("score_100", Json.jint 88),
      ("grade", Json.jstr "B+"),
      ("metrics", Json.jobj [("dti_pct", Json.jnum (21/2))])]) demoProfile =
      Except.ok a :=
  ⟨rfl, repair_total_on_well_typed _ demoProfile rfl⟩

/-- `Decimal.sqrt` model is exact on the perfect square 1. -/
theorem ratSqrt_one : ratSqrt 1 = 1 := by
  have h1 : isqrt 1 = 1 := by decide
  unfold ratSqrt
  norm_num [h1]

/-- C5 counterexample: on the 12-month history `[1,2,3,0,…,0]` (volatility
index 50.00) the code returns confidence 15.00 while the spec's formula gives
35.00 — the source divides the volatility index by the mean income, not by
100. -/
theorem confidence_formula_counterexample :
    (predict_with_statistics c5history).income_volatility = 50 ∧
    (predict_with_statistics c5history).confidence_level = 15 ∧
    spec_confidence_c5 3 50 = 35 ∧
    (predict_with_statistics c5history).confidence_level ≠
      spec_confidence_c5 (c5history.filter (fun x => 0 < x)).length
        (predict_with_statistics c5history).income_volatility := by
  have hfilter : c5history.filter (fun x => 0 < x) = [1, 2, 3] := by
    norm_num [c5history]
  have hvol : (predict_with_statistics c5history).income_volatility = 50 := by
    unfold predict_with_statistics
    rw [hfilter]
    norm_num [ratSqrt_one, roundHalfEven]
  have hconf : (predict_with_statistics c5history).confidence_level = 15 := by
    unfold predict_with_statistics
    rw [hfilter]
    norm_num [ratSqrt_one, calculate_confidence, roundHalfEven, min_def, max_def]
  have hspec : spec_confidence_c5 3 50 = 35 := by
    norm_num [spec_confidence_c5, roundHalfEven, min_def, max_def]
  refine ⟨hvol, hconf, hspec, ?_⟩
  rw [hconf, hfilter, hvol]
  rw [show (([1, 2, 3] : List ℚ)).length = 3 from rfl, hspec]
  norm_num

/-- C5 (amended): the code's confidence equals the spec §4.2 step-6 formula
with the volatility term divided by the mean income instead of by 100, for
every valid-month list, nonnegative volatility and positive mean (the outer
clamp of the spec formula is provably inert). -/
theorem calculate_confidence_eq_amended (valid_incomes : List ℚ)
    (volatility mean_income : ℚ) (hv : 0 ≤ volatility) (hm : 0 < mean_income) :
    calculate_confidence valid_incomes volatility mean_income =
      spec_confidence_amended valid_incomes.length volatility mean_income := by
  simp only [calculate_confidence, spec_confidence_amended]
  rw [if_pos hm]
  have hdm : (0:ℚ) ≤ volatility / mean_income := div_nonneg hv hm.le
  have h1 : min 1 (1 - volatility / mean_income) = 1 - volatility / mean_income :=
    min_eq_right (by linarith)
  rw [h1]
  have hdq0 : (0:ℚ) ≤ min ((valid_incomes.length : ℚ) / 12) 1 :=
    le_min (by positivity) (by norm_num)
  have hdq1 : min ((valid_incomes.length : ℚ) / 12) 1 ≤ 1 := min_le_right _ _
  have hvf0 : (0:ℚ) ≤ max 0 (1 - volatility / mean_income) := le_max_left _ _
  have hvf1 : max 0 (1 - volatility / mean_income) ≤ 1 :=
    max_le (by norm_num) (by linarith)
  have hX0 : 0 ≤ (min ((valid_incomes.length : ℚ) / 12) 1 * (6/10) +
      max 0 (1 - volatility / mean_income) * (4/10)) * 100 := by nlinarith
  have hX100 : (min ((valid_incomes.length : ℚ) / 12) 1 * (6/10) +
      max 0 (1 - volatility / mean_income) * (4/10)) * 100 ≤ 100 := by nlinarith
  rw [min_eq_right hX100, max_eq_right hX0]

/-- Witness for `calculate_confidence_eq_amended` at 3 valid months,
volatility 50, mean 2. -/
theorem calculate_confidence_amended_witness :
    (0:ℚ) ≤ 50 ∧ (0:ℚ) < 2 ∧
    calculate_confidence [1, 2, 3] 50 2 = spec_confidence_amended 3 50 2 :=
  ⟨by norm_num, by norm_num,
    calculate_confidence_eq_amended [1, 2, 3] 50 2 (by norm_num) (by norm_num)⟩

/-- C8 counterexample: on the all-zero 12-month history the predictor returns
growth trend "unknown", which is outside {positive, stable, negative}. -/
theorem growth_trend_unknown_on_zero_history :
    (predict_with_statistics zeroHistory).growth_trend = "unknown" ∧
    ¬ (predict_with_statistics zeroHistory).growth_trend ∈
        (["positive", "stable", "negative"] : List String) := by
  refine ⟨rfl, ?_⟩
  have h : (predict_with_statistics zeroHistory).growth_trend = "unknown" := rfl
  rw [h]
  simp

/-- C8 (amended): whenever at least one month is positive, the growth trend is
one of positive, stable, negative; only the all-invalid history yields the
fourth value "unknown". -/
theorem growth_trend_in_three (monthly : List ℚ)
    (h : (monthly.filter (fun x => 0 < x)).isEmpty = false) :
    (predict_with_statistics monthly).growth_trend ∈
      (["positive", "stable", "negative"] : List String) := by
  have key : ∀ valid : List ℚ, analyze_growth_trend valid ∈
      (["positive", "stable", "negative"] : List String) := by
    intro valid
    unfold analyze_growth_trend
    by_cases h1 : valid.length < 3
    · rw [if_pos h1]; simp
    · rw [if_neg h1]
      have three : ∀ (c1 c2 : Prop) (_ : Decidable c1) (_ : Decidable c2),
          (if c1 then "positive" else if c2 then "negative" else "stable") ∈
            (["positive", "stable", "negative"] : List String) := by
        intro c1 c2 d1 d2
        split_ifs <;> simp
      exact three _ _ _ _
  unfold predict_with_statistics
  simp only []
  rw [h]
  simp only [Bool.false_eq_true, if_false]
  exact key _

/-- Witness for `growth_trend_in_three` on the history `[1,2,3,0,…,0]`. -/
theorem growth_trend_in_three_witness :
    (c5history.filter (fun x => 0 < x)).isEmpty = false ∧
    (predict_with_statistics c5history).growth_trend ∈
      (["positive", "stable", "negative"] : List String) :=
  ⟨by norm_num [c5history], growth_trend_in_three c5history (by norm_num [c5history])⟩

/-- C9: the statistical predictor on the all-zero 12-month history returns
confidence 0, predicted monthly income 0, and the insufficient-income-data
risk factor; the embedding is a total function, so no exception can arise. -/
theorem predict_zero_history_result :
    (predict_with_statistics zeroHistory).confidence_level = 0 ∧
    (predict_with_statistics zeroHistory).predicted_monthly_income = 0 ∧
    "소득 데이터 부족" ∈ (predict_with_statistics zeroHistory).risk_factors := by
  refine ⟨rfl, rfl, ?_⟩
  have h : (predict_with_statistics zeroHistory).risk_factors = ["소득 데이터 부족"] := rfl
  rw [h]
  simp

set_option maxHeartbeats 3000000 in
/-- C6: for every volatility, growth trend, and risk tier, the 8 renormalized
ratios sum to 1 within 1e-4 (the Python quantization to 4 decimals can leave a
residue of exactly 1e-4 in several branches, never more).  All 27 reachable
condition combinations are checked. -/
theorem ratios_sum_within_tolerance (volatility : ℚ) (growth_trend : String)
    (plan_type : PlanType) :
    |ratioSum (calculate_dynamic_ratios volatility growth_trend plan_type) - 1| ≤
      1/10000 := by
  have h2530 : (25:ℚ) < 30 := by norm_num
  have hpn : (("positive" : String) = "negative") = False := by simp
  have hnp : (("negative" : String) = "positive") = False := by simp
  rcases plan_type <;>
    by_cases h30 : (30:ℚ) < volatility <;>
    by_cases h25 : (25:ℚ) < volatility <;>
    by_cases hp : growth_trend = "positive" <;>
    by_cases hn : growth_trend = "negative" <;>
    first
      | exact absurd (hp.symm.trans hn) (by simp)
      | exact absurd (lt_trans h2530 h30) h25
      | norm_num [calculate_dynamic_ratios, pre_norm_ratios, base_ratios, ratioSum,
          roundHalfEven, h30, h25, hp, hn, hpn, hnp, abs_le]

set_option maxHeartbeats 3000000 in
/-- C10: every renormalized ratio is strictly positive, and so is the weight
sum over the 5 variable categories; hence the `weight_sum > 0` guard of
`_generate_monthly_plans` (plan/ai_services.py:764) always takes the
proportional branch on ratios produced by `_calculate_dynamic_ratios`, and
the all-zero variable branch is unreachable from this pipeline. -/
theorem ratios_all_positive (volatility : ℚ) (growth_trend : String)
    (plan_type : PlanType) :
    (0 < (calculate_dynamic_ratios volatility growth_trend plan_type).savings ∧
     0 < (calculate_dynamic_ratios volatility growth_trend plan_type).investment ∧
     0 < (calculate_dynamic_ratios volatility growth_trend plan_type).housing ∧
     0 < (calculate_dynamic_ratios volatility growth_trend plan_type).food ∧
     0 < (calculate_dynamic_ratios volatility growth_trend plan_type).transport ∧
     0 < (calculate_dynamic_ratios volatility growth_trend plan_type).healthcare ∧
     0 < (calculate_dynamic_ratios volatility growth_trend plan_type).entertainment ∧
     0 < (calculate_dynamic_ratios volatility growth_trend plan_type).other) ∧
    0 < var_weight_sum (calculate_dynamic_ratios volatility growth_trend plan_type) := by
  have h2530 : (25:ℚ) < 30 := by norm_num
  have hpn : (("positive" : String) = "negative") = False := by simp
  have hnp : (("negative" : String) = "positive") = False := by simp
  rcases plan_type <;>
    by_cases h30 : (30:ℚ) < volatility <;>
    by_cases h25 : (25:ℚ) < volatility <;>
    by_cases hp : growth_trend = "positive" <;>
    by_cases hn : growth_trend = "negative" <;>
    first
      | exact absurd (hp.symm.trans hn) (by simp)
      | exact absurd (lt_trans h2530 h30) h25
      | norm_num [calculate_dynamic_ratios, pre_norm_ratios, base_ratios, ratioSum,
          var_weight_sum, roundHalfEven, h30, h25, hp, hn, hpn, hnp]

/-- Every seasonal factor of the table (and the default) is positive. -/
theorem get_seasonal_factor_pos (m : ℕ) : 0 < get_seasonal_factor m := by
  unfold get_seasonal_factor
  split <;> norm_num

/-- The seasonally and trend-adjusted monthly income is nonnegative for a
nonnegative prediction. -/
theorem monthly_income_for_nonneg (p : ℚ) (t : String) (m : ℕ) (h : 0 ≤ p) :
    0 ≤ monthly_income_for p t m := by
  unfold monthly_income_for
  have hs := (get_seasonal_factor_pos m).le
  split_ifs
  · exact mul_nonneg (mul_nonneg h hs) (pow_nonneg (by norm_num) m)
  · exact mul_nonneg (mul_nonneg h hs) (pow_nonneg (by norm_num) m)
  · exact mul_nonneg h hs

/-- The floor-clamped remaining pool is nonnegative. -/
theorem remaining_for_nonneg (p : ℚ) (r : Ratios) (t : String) (fx : FixedExpenses)
    (m : ℕ) : 0 ≤ remaining_for p r t fx m := by
  unfold remaining_for
  simp only []
  split_ifs with h
  · norm_num
  · exact not_lt.mp h

/-- C7 (amended): for nonnegative predicted income, ratio vector, and
fixed-expense table, every entry of the 12-month projection has only
nonnegative components, and the claimed sum *without* the housing category
never exceeds max(expected_income, savings + investment +
fixed_expenses_total); when the remaining pool is positive it equals
expected_income exactly.  The original 9-term bound fails because the housing
category duplicates the housing fixed expense already counted inside
`fixed_expenses_total`, and because savings/investment/fixed are not scaled
down when they exceed the month's income (see
`monthly_plan_sum_counterexample`). -/
theorem monthly_plans_amended (predicted_income : ℚ) (r : Ratios)
    (growth_trend : String) (fx : FixedExpenses)
    (hI : 0 ≤ predicted_income) (hs : 0 ≤ r.savings) (hv : 0 ≤ r.investment)
    (hh : 0 ≤ r.housing) (hfo : 0 ≤ r.food) (htr : 0 ≤ r.transport)
    (hhe : 0 ≤ r.healthcare) (hen : 0 ≤ r.entertainment) (hot : 0 ≤ r.other)
    (hfh : 0 ≤ fx.housing) (hft : 0 ≤ fx.telecom) (hfu : 0 ≤ fx.utilities) :
    ∀ pl ∈ generate_monthly_plans predicted_income r growth_trend fx,
      (0 ≤ pl.expected_income ∧ 0 ≤ pl.savings ∧ 0 ≤ pl.investment ∧
       0 ≤ pl.housing ∧ 0 ≤ pl.food ∧ 0 ≤ pl.transport ∧ 0 ≤ pl.healthcare ∧
       0 ≤ pl.entertainment ∧ 0 ≤ pl.other ∧ 0 ≤ pl.fixed_expenses_total) ∧
      partial_sum pl ≤ max pl.expected_income
        (pl.savings + pl.investment + pl.fixed_expenses_total) := by
  intro pl hpl
  rw [generate_monthly_plans] at hpl
  obtain ⟨m, _, rfl⟩ := List.mem_map.mp hpl
  have hI0 : 0 ≤ monthly_income_for predicted_income growth_trend m :=
    monthly_income_for_nonneg _ _ _ hI
  have hR0 : 0 ≤ remaining_for predicted_income r growth_trend fx m :=
    remaining_for_nonneg _ _ _ _ _
  constructor
  · refine ⟨hI0, mul_nonneg hI0 hs, mul_nonneg hI0 hv, ?_, ?_, ?_, ?_, ?_, ?_,
      add_nonneg (add_nonneg hfh hft) hfu⟩
    · show 0 ≤ if fx.housing = 0 then
          monthly_income_for predicted_income growth_trend m * r.housing else fx.housing
      split_ifs
      · exact mul_nonneg hI0 hh
      · exact hfh
    · show 0 ≤ if 0 < var_weight_sum r then
          remaining_for predicted_income r growth_trend fx m * r.food /
            var_weight_sum r else 0
      split_ifs with hW
      · exact div_nonneg (mul_nonneg hR0 hfo) hW.le
      · norm_num
    · show 0 ≤ if 0 < var_weight_sum r then
          remaining_for predicted_income r growth_trend fx m * r.transport /
            var_weight_sum r else 0
      split_ifs with hW
      · exact div_nonneg (mul_nonneg hR0 htr) hW.le
      · norm_num
    · show 0 ≤ if 0 < var_weight_sum r then
          remaining_for predicted_income r growth_trend fx m * r.healthcare /
            var_weight_sum r else 0
      split_ifs with hW
      · exact div_nonneg (mul_nonneg hR0 hhe) hW.le
      · norm_num
    · show 0 ≤ if 0 < var_weight_sum r then
          remaining_for predicted_income r growth_trend fx m * r.entertainment /
            var_weight_sum r else 0
      split_ifs with hW
      · exact div_nonneg (mul_nonneg hR0 hen) hW.le
      · norm_num
    · show 0 ≤ if 0 < var_weight_sum r then
          remaining_for predicted_income r growth_trend fx m * r.other /
            var_weight_sum r else 0
      split_ifs with hW
      · exact div_nonneg (mul_nonneg hR0 hot) hW.le
      · norm_num
  · have e_sum : partial_sum (monthly_plan_for predicted_income r growth_trend fx m) =
        monthly_income_for predicted_income growth_trend m * r.savings +
        monthly_income_for predicted_income growth_trend m * r.investment +
        (if 0 < var_weight_sum r then
          remaining_for predicted_income r growth_trend fx m * r.food /
            var_weight_sum r else 0) +
        (if 0 < var_weight_sum r then
          remaining_for predicted_income r growth_trend fx m * r.transport /
            var_weight_sum r else 0) +
        (if 0 < var_weight_sum r then
          remaining_for predicted_income r growth_trend fx m * r.healthcare /
            var_weight_sum r else 0) +
        (if 0 < var_weight_sum r then
          remaining_for predicted_income r growth_trend fx m * r.entertainment /
            var_weight_sum r else 0) +
        (if 0 < var_weight_sum r then
          remaining_for predicted_income r growth_trend fx m * r.other /
            var_weight_sum r else 0) +
        (fx.housing + fx.telecom + fx.utilities) := rfl
    have e_inc : (monthly_plan_for predicted_income r growth_trend fx m).expected_income =
        monthly_income_for predicted_income growth_trend m := rfl
    have e_sav : (monthly_plan_for predicted_income r growth_trend fx m).savings =
        monthly_income_for predicted_income growth_trend m * r.savings := rfl
    have e_inv : (monthly_plan_for predicted_income r growth_trend fx m).investment =
        monthly_income_for predicted_income growth_trend m * r.investment := rfl
    have e_ft : (monthly_plan_for predicted_income r growth_trend
        fx m).fixed_expenses_total = fx.housing + fx.telecom + fx.utilities := rfl
    rw [e_sum, e_inc, e_sav, e_inv, e_ft]
    by_cases hW : 0 < var_weight_sum r
    · have hWne : var_weight_sum r ≠ 0 := ne_of_gt hW
      have hvars : remaining_for predicted_income r growth_trend fx m * r.food /
            var_weight_sum r +
          remaining_for predicted_income r growth_trend fx m * r.transport /
            var_weight_sum r +
          remaining_for predicted_income r growth_trend fx m * r.healthcare /
            var_weight_sum r +
          remaining_for predicted_income r growth_trend fx m * r.entertainment /
            var_weight_sum r +
          remaining_for predicted_income r growth_trend fx m * r.other /
            var_weight_sum r =
          remaining_for predicted_income r growth_trend fx m := by
        field_simp
        unfold var_weight_sum
        ring
      simp only [if_pos hW]
      rcases le_or_lt 0 (monthly_income_for predicted_income growth_trend m -
          monthly_income_for predicted_income growth_trend m * r.savings -
          monthly_income_for predicted_income growth_trend m * r.investment -
          fx.housing - fx.telecom - fx.utilities) with hrem | hrem
      · have eR : remaining_for predicted_income r growth_trend fx m =
            monthly_income_for predicted_income growth_trend m -
            monthly_income_for predicted_income growth_trend m * r.savings -
            monthly_income_for predicted_income growth_trend m * r.investment -
            fx.housing - fx.telecom - fx.utilities := by
          unfold remaining_for
          simp only []
          rw [if_neg (not_lt.mpr hrem)]
        have hle := le_max_left (monthly_income_for predicted_income growth_trend m)
          (monthly_income_for predicted_income growth_trend m * r.savings +
           monthly_income_for predicted_income growth_trend m * r.investment +
           (fx.housing + fx.telecom + fx.utilities))
        linarith [hvars, eR, hle]
      · have eR : remaining_for predicted_income r growth_trend fx m = 0 := by
          unfold remaining_for
          simp only []
          rw [if_pos hrem]
        have hle := le_max_right (monthly_income_for predicted_income growth_trend m)
          (monthly_income_for predicted_income growth_trend m * r.savings +
           monthly_income_for predicted_income growth_trend m * r.investment +
           (fx.housing + fx.telecom + fx.utilities))
        linarith [hvars, eR, hle]
    · simp only [if_neg hW]
      have hle := le_max_right (monthly_income_for predicted_income growth_trend m)
        (monthly_income_for predicted_income growth_trend m * r.savings +
         monthly_income_for predicted_income growth_trend m * r.investment +
         (fx.housing + fx.telecom + fx.utilities))
      linarith [hle]

/-- The pipeline ratios at volatility 10, stable trend, aggressive tier. -/
theorem c7_ratios_eq : calculate_dynamic_ratios 10 "stable" PlanType.aggressive =
    { savings := 1491/10000, investment := 2368/10000, housing := 2193/10000,
      food := 1316/10000, transport := 877/10000, healthcare := 439/10000,
      entertainment := 877/10000, other := 439/10000 } := by
  have hsp : (("stable" : String) = "positive") = False := by simp
  have hsn : (("stable" : String) = "negative") = False := by simp
  norm_num [calculate_dynamic_ratios, pre_norm_ratios, base_ratios, ratioSum,
    roundHalfEven, hsp, hsn]

/-- The adjusted income of month 1 at stable trend and prediction 1,000,000. -/
theorem c7_income_eq : monthly_income_for 1000000 "stable" 1 = 1100000 := by
  have hsp : (("stable" : String) = "positive") = False := by simp
  have hsn : (("stable" : String) = "negative") = False := by simp
  have hseas : get_seasonal_factor 1 = 11/10 := rfl
  unfold monthly_income_for
  norm_num [hseas, hsp, hsn]

/-- C7 counterexample: with the pipeline's own ratios (volatility 10, stable
trend, aggressive tier), the default fixed expenses and predicted income
1,000,000, the first of the 12 entries sums to 2,214,490 against an expected
income of 1,100,000 — exceeding it by over 1.1 million, far beyond any
rounding error: housing (800,000) is counted both as a category amount and
inside `fixed_expenses_total`, and savings/investment/fixed are not scaled
down when they exceed the month's income. -/
theorem monthly_plan_sum_counterexample :
    (monthly_plan_for 1000000 (calculate_dynamic_ratios 10 "stable"
        PlanType.aggressive) "stable" fetch_fixed_expenses 1) ∈
      generate_monthly_plans 1000000
        (calculate_dynamic_ratios 10 "stable" PlanType.aggressive) "stable"
        fetch_fixed_expenses ∧
    (monthly_plan_for 1000000 (calculate_dynamic_ratios 10 "stable"
        PlanType.aggressive) "stable" fetch_fixed_expenses 1).expected_income =
      1100000 ∧
    claim_sum (monthly_plan_for 1000000 (calculate_dynamic_ratios 10 "stable"
        PlanType.aggressive) "stable" fetch_fixed_expenses 1) = 2214490 ∧
    (monthly_plan_for 1000000 (calculate_dynamic_ratios 10 "stable"
        PlanType.aggressive) "stable" fetch_fixed_expenses 1).expected_income +
      1000 <
      claim_sum (monthly_plan_for 1000000 (calculate_dynamic_ratios 10 "stable"
        PlanType.aggressive) "stable" fetch_fixed_expenses 1) := by
  have hinc : (monthly_plan_for 1000000 (calculate_dynamic_ratios 10 "stable"
      PlanType.aggressive) "stable" fetch_fixed_expenses 1).expected_income =
      1100000 := by
    have e : (monthly_plan_for 1000000 (calculate_dynamic_ratios 10 "stable"
        PlanType.aggressive) "stable" fetch_fixed_expenses 1).expected_income =
        monthly_income_for 1000000 "stable" 1 := rfl
    rw [e, c7_income_eq]
  have hfxh : fetch_fixed_expenses.housing = (800000:ℚ) := rfl
  have hfxt : fetch_fixed_expenses.telecom = (70000:ℚ) := rfl
  have hfxu : fetch_fixed_expenses.utilities = (120000:ℚ) := rfl
  have hsum : claim_sum (monthly_plan_for 1000000 (calculate_dynamic_ratios 10
      "stable" PlanType.aggressive) "stable" fetch_fixed_expenses 1) = 2214490 := by
    rw [c7_ratios_eq]
    have hrem : remaining_for 1000000
        { savings := 1491/10000, investment := 2368/10000, housing := 2193/10000,
          food := 1316/10000, transport := 877/10000, healthcare := 439/10000,
          entertainment := 877/10000, other := 439/10000 }
        "stable" fetch_fixed_expenses 1 = 0 := by
      unfold remaining_for
      norm_num [c7_income_eq, hfxh, hfxt, hfxu]
    simp only [claim_sum, monthly_plan_for]
    rw [hrem]
    norm_num [var_weight_sum, c7_income_eq, hfxh, hfxt, hfxu]
  refine ⟨List.mem_map_of_mem _ (by decide), hinc, hsum, ?_⟩
  rw [hinc, hsum]
  norm_num

/-- Witness for `monthly_plans_amended` at the counterexample's inputs. -/
theorem monthly_plans_amended_witness :
    (0 ≤ (monthly_plan_for 1000000 (calculate_dynamic_ratios 10 "stable"
        PlanType.aggressive) "stable" fetch_fixed_expenses 1).expected_income ∧
     0 ≤ (monthly_plan_for 1000000 (calculate_dynamic_ratios 10 "stable"
        PlanType.aggressive) "stable" fetch_fixed_expenses 1).savings ∧
     0 ≤ (monthly_plan_for 1000000 (calculate_dynamic_ratios 10 "stable"
        PlanType.aggressive) "stable" fetch_fixed_expenses 1).investment ∧
     0 ≤ (monthly_plan_for 1000000 (calculate_dynamic_ratios 10 "stable"
        PlanType.aggressive) "stable" fetch_fixed_expenses 1).housing ∧
     0 ≤ (monthly_plan_for 1000000 (calculate_dynamic_ratios 10 "stable"
        PlanType.aggressive) "stable" fetch_fixed_expenses 1).food ∧
     0 ≤ (monthly_plan_for 1000000 (calculate_dynamic_ratios 10 "stable"
        PlanType.aggressive) "stable" fetch_fixed_expenses 1).transport ∧
     0 ≤ (monthly_plan_for 1000000 (calculate_dynamic_ratios 10 "stable"
        PlanType.aggressive) "stable" fetch_fixed_expenses 1).healthcare ∧
     0 ≤ (monthly_plan_for 1000000 (calculate_dynamic_ratios 10 "stable"
        PlanType.aggressive) "stable" fetch_fixed_expenses 1).entertainment ∧
     0 ≤ (monthly_plan_for 1000000 (calculate_dynamic_ratios 10 "stable"
        PlanType.aggressive) "stable" fetch_fixed_expenses 1).other ∧
     0 ≤ (monthly_plan_for 1000000 (calculate_dynamic_ratios 10 "stable"
        PlanType.aggressive) "stable" fetch_fixed_expenses 1).fixed_expenses_total) ∧
    partial_sum (monthly_plan_for 1000000 (calculate_dynamic_ratios 10 "stable"
        PlanType.aggressive) "stable" fetch_fixed_expenses 1) ≤
      max (monthly_plan_for 1000000 (calculate_dynamic_ratios 10 "stable"
        PlanType.aggressive) "stable" fetch_fixed_expenses 1).expected_income
        ((monthly_plan_for 1000000 (calculate_dynamic_ratios 10 "stable"
          PlanType.aggressive) "stable" fetch_fixed_expenses 1).savings +
         (monthly_plan_for 1000000 (calculate_dynamic_ratios 10 "stable"
          PlanType.aggressive) "stable" fetch_fixed_expenses 1).investment +
         (monthly_plan_for 1000000 (calculate_dynamic_ratios 10 "stable"
          PlanType.aggressive) "stable" fetch_fixed_expenses 1).fixed_expenses_total) :=
  monthly_plans_amended 1000000 (calculate_dynamic_ratios 10 "stable"
      PlanType.aggressive) "stable" fetch_fixed_expenses
    (by norm_num)
    (by rw [c7_ratios_eq]; norm_num)
    (by rw [c7_ratios_eq]; norm_num)
    (by rw [c7_ratios_eq]; norm_num)
    (by rw [c7_ratios_eq]; norm_num)
    (by rw [c7_ratios_eq]; norm_num)
    (by rw [c7_ratios_eq]; norm_num)
    (by rw [c7_ratios_eq]; norm_num)
    (by rw [c7_ratios_eq]; norm_num)
    (by norm_num [fetch_fixed_expenses])
    (by norm_num [fetch_fixed_expenses])
    (by norm_num [fetch_fixed_expenses])
    (monthly_plan_for 1000000 (calculate_dynamic_ratios 10 "stable"
        PlanType.aggressive) "stable" fetch_fixed_expenses 1)
    (List.mem_map_of_mem _ (by decide))

end MuchAI
